import Mathlib

/-!
Shallow embedding of the banking front-end (React + Apollo client).

The source components are pure functions of their form state plus the
outcome of the backend mutation, so each submit handler is embedded as a
function from (form state, mutation outcome) to an outcome record listing
the network request issued (if any), the alert text shown, the refetched
queries, and the new form state.  JavaScript numbers produced by
`parseFloat` are embedded as `Option Rat`, `none` standing for `NaN`;
JavaScript comparisons, which are false on `NaN`, are embedded by `jsLe`
and `jsLt`.
-/

/-- Parts of a decimal literal read by `parseFloat`: sign, integer part,
fractional part and its digit count. -/
structure JSDecimal where
  neg : Bool
  ip : Nat
  fp : Nat
  flen : Nat
deriving DecidableEq

/-- Structural stage of JavaScript `parseFloat`: reads an optional sign,
then integer digits and an optional fractional part, ignoring any
trailing characters; `none` when no digit can be read (`NaN`). -/
def parseFloatParts (s : String) : Option JSDecimal :=
  let cs := s.toList
  let signed : Bool × List Char :=
    match cs with
    | '-' :: t => (true, t)
    | '+' :: t => (false, t)
    | _ => (false, cs)
  let intDigits := signed.2.takeWhile Char.isDigit
  let afterInt := signed.2.dropWhile Char.isDigit
  let fracDigits : List Char :=
    match afterInt with
    | '.' :: t => t.takeWhile Char.isDigit
    | _ => []
  if intDigits.isEmpty && fracDigits.isEmpty then none
  else
    some { neg := signed.1
           ip := intDigits.foldl (fun a c => 10 * a + (c.toNat - 48)) 0
           fp := fracDigits.foldl (fun a c => 10 * a + (c.toNat - 48)) 0
           flen := fracDigits.length }

/-- Rational value of the decimal parts. -/
def JSDecimal.toRat (d : JSDecimal) : Rat :=
  (if d.neg then (-1 : Rat) else 1) * ((d.ip : Rat) + (d.fp : Rat) / (10 : Rat) ^ d.flen)

/-- Model of JavaScript `parseFloat` on the form-field strings:
`none` models `NaN`. -/
def parseFloat (s : String) : Option Rat :=
  (parseFloatParts s).map JSDecimal.toRat

/-- JavaScript comparison `x <= y` where `x` may be `NaN` (`none`):
every comparison against `NaN` is false. -/
def jsLe (x : Option Rat) (y : Rat) : Bool :=
  match x with
  | none => false
  | some q => decide (q ≤ y)

/-- JavaScript comparison `x < y` where `x` may be `NaN` (`none`). -/
def jsLt (x : Option Rat) (y : Rat) : Bool :=
  match x with
  | none => false
  | some q => decide (q < y)

/-- The read operations declared in services/graphql-queries.js. -/
inductive QueryOp where
  | getAllComptes
  | getCompteById
  | getTotalSolde
  | getCompteByType
  | getCompteTransactions
  | getAllTransactions
  | getTransactionStats
deriving DecidableEq

/-- An account record as returned by the backend. -/
structure Compte where
  id : String
  solde : Rat
  dateCreation : String
  type : String
deriving DecidableEq

/-- Variables sent with the ADD_TRANSACTION mutation; `montant` is the
`parseFloat` of the amount field (`none` = `NaN`). -/
structure TransactionRequest where
  type : String
  montant : Option Rat
  compteId : String
deriving DecidableEq

/-- Variables sent with the SAVE_COMPTE mutation. -/
structure CompteRequest where
  solde : Option Rat
  type : String
deriving DecidableEq

/-- refetchQueries list declared on useMutation(SAVE_COMPTE) in
CreateCompte.js. -/
def saveCompteRefetchQueries : List QueryOp :=
  [QueryOp.getAllComptes]

/-- refetchQueries list declared on useMutation(ADD_TRANSACTION) in
TransactionForm.js. -/
def addTransactionRefetchQueries : List QueryOp :=
  [QueryOp.getAllTransactions, QueryOp.getAllComptes]

/-- The three useState fields of TransactionForm. -/
structure TransactionFormState where
  type : String
  montant : String
  compteId : String
deriving DecidableEq

/-- Initial TransactionForm state: useState defaults. -/
def TransactionForm.initialState : TransactionFormState :=
  { type := "DEPOT", montant := "", compteId := "" }

/-- Observable outcome of one TransactionForm submission: the mutation
request put on the network (if any), the alert text, the queries
refetched after a successful mutation, and the form state afterwards. -/
structure TxOutcome where
  networkCall : Option TransactionRequest
  alert : String
  refetches : List QueryOp
  newState : TransactionFormState
deriving DecidableEq

/-- Embedding of TransactionForm.handleSubmit.  `r` is the settled
result of awaiting the addTransaction mutation, only reached when
validation passes: `Except.ok` models success (after which Apollo
refetches the declared queries), `Except.error msg` a transport or
backend error with message `msg`. -/
def TransactionForm.handleSubmit (st : TransactionFormState)
    (r : Except String Unit) : TxOutcome :=
  if st.montant = "" ∨ jsLe (parseFloat st.montant) 0 = true then
    { networkCall := none
      alert := "Veuillez entrer un montant valide"
      refetches := []
      newState := st }
  else if st.compteId = "" then
    { networkCall := none
      alert := "Veuillez sélectionner un compte"
      refetches := []
      newState := st }
  else
    let req : TransactionRequest :=
      { type := st.type, montant := parseFloat st.montant, compteId := st.compteId }
    match r with
    | Except.ok _ =>
        { networkCall := some req
          alert := "✅ " ++ (if st.type = "DEPOT" then "Dépôt" else "Retrait")
                    ++ " effectué avec succès !"
          refetches := addTransactionRefetchQueries
          newState := { st with montant := "" } }
    | Except.error msg =>
        { networkCall := some req
          alert := "❌ Erreur : " ++ msg
          refetches := []
          newState := st }

/-- The two useState fields of CreateCompte. -/
structure CreateCompteState where
  solde : String
  type : String
deriving DecidableEq

/-- Initial CreateCompte state: useState defaults. -/
def CreateCompte.initialState : CreateCompteState :=
  { solde := "", type := "COURANT" }

/-- Observable outcome of one CreateCompte submission. -/
structure CreateOutcome where
  networkCall : Option CompteRequest
  alert : String
  refetches : List QueryOp
  newState : CreateCompteState
deriving DecidableEq

/-- Embedding of CreateCompte.handleSubmit, in the same style as
`TransactionForm.handleSubmit`. -/
def CreateCompte.handleSubmit (st : CreateCompteState)
    (r : Except String Unit) : CreateOutcome :=
  if st.solde = "" ∨ jsLt (parseFloat st.solde) 0 = true then
    { networkCall := none
      alert := "Veuillez entrer un solde valide"
      refetches := []
      newState := st }
  else
    let req : CompteRequest := { solde := parseFloat st.solde, type := st.type }
    match r with
    | Except.ok _ =>
        { networkCall := some req
          alert := "✅ Compte créé avec succès !"
          refetches := saveCompteRefetchQueries
          newState := { solde := "", type := "COURANT" } }
    | Except.error msg =>
        { networkCall := some req
          alert := "❌ Erreur : " ++ msg
          refetches := []
          newState := st }

/-- State of a useQuery subscription as seen by a read component. -/
inductive QueryState (α : Type) where
  | loading
  | error (message : String)
  | ready (data : α)

/-- What one render of CompteList puts on screen: the loading spinner,
the error box text, the count label, the empty-state notice, one card
row per account, and the refresh button with the query its click
refetches. -/
structure CompteListView where
  loadingIndicator : Bool
  errorMessage : Option String
  countLabel : Option String
  emptyNotice : Bool
  rows : List Compte
  refreshButton : Bool
  refreshQuery : Option QueryOp
deriving DecidableEq

/-- Embedding of the CompteList component body: early return on loading,
early return on error, otherwise the count label, refresh button wired
to refetch GET_ALL_COMPTES, and either the empty notice or one card per
account. -/
def CompteList.render (qs : QueryState (List Compte)) : CompteListView :=
  match qs with
  | QueryState.loading =>
      { loadingIndicator := true
        errorMessage := none
        countLabel := none
        emptyNotice := false
        rows := []
        refreshButton := false
        refreshQuery := none }
  | QueryState.error msg =>
      { loadingIndicator := false
        errorMessage := some msg
        countLabel := none
        emptyNotice := false
        rows := []
        refreshButton := false
        refreshQuery := none }
  | QueryState.ready comptes =>
      { loadingIndicator := false
        errorMessage := none
        countLabel := some ("Total: " ++ toString comptes.length ++ " compte(s)")
        emptyNotice := comptes.isEmpty
        rows := comptes
        refreshButton := true
        refreshQuery := some QueryOp.getAllComptes }

/-- Default fetch-policy block of the Apollo client configuration. -/
structure FetchDefaults where
  fetchPolicy : String
deriving DecidableEq

/-- The fields of the ApolloClient construction in
clients/apollo-client.js. -/
structure ApolloClientConfig where
  uri : String
  credentials : String
  hasInMemoryCache : Bool
  watchQueryDefaults : FetchDefaults
  queryDefaults : FetchDefaults
deriving DecidableEq

/-- Embedding of the client instance built in clients/apollo-client.js. -/
def client : ApolloClientConfig :=
  { uri := "/graphql"
    credentials := "include"
    hasInMemoryCache := true
    watchQueryDefaults := { fetchPolicy := "network-only" }
    queryDefaults := { fetchPolicy := "network-only" } }

/-- The first concrete account of the spec scenario. -/
def compte1 : Compte :=
  { id := "1", solde := 1500, dateCreation := "2025-01-15", type := "COURANT" }

/-- The second concrete account of the spec scenario. -/
def compte2 : Compte :=
  { id := "2", solde := 5000, dateCreation := "2025-02-20", type := "EPARGNE" }

/-- Evaluation helper: the empty amount field parses to NaN. -/
lemma parseFloat_empty : parseFloat "" = none := by decide

/-- Evaluation helper: the string "500" parses to 500. -/
lemma parseFloat_500 : parseFloat "500" = some 500 := by
  have h : parseFloatParts "500" = some { neg := false, ip := 500, fp := 0, flen := 0 } := by
    decide
  simp [parseFloat, h, JSDecimal.toRat]

/-- Evaluation helper: the string "-100" parses to -100. -/
lemma parseFloat_neg100 : parseFloat "-100" = some (-100) := by
  have h : parseFloatParts "-100" = some { neg := true, ip := 100, fp := 0, flen := 0 } := by
    decide
  simp [parseFloat, h, JSDecimal.toRat]

/-- C1: the declared refetch-on-success bindings are exactly: the
saveCompte mutation re-issues the GET_ALL_COMPTES read, and the
addTransaction mutation re-issues the GET_ALL_TRANSACTIONS and
GET_ALL_COMPTES reads; no other reads are bound to either write. -/
theorem refetch_bindings_exact :
    saveCompteRefetchQueries = [QueryOp.getAllComptes] ∧
    addTransactionRefetchQueries = [QueryOp.getAllTransactions, QueryOp.getAllComptes] := by
  decide

/-- C2: a Transaction Form submission whose amount field is empty or
parses to a value ≤ 0 issues no network call, alerts "Veuillez entrer
un montant valide", and leaves the whole form state unchanged. -/
theorem transactionForm_invalid_amount_blocks (st : TransactionFormState)
    (r : Except String Unit)
    (h : st.montant = "" ∨ ∃ q, parseFloat st.montant = some q ∧ q ≤ 0) :
    (TransactionForm.handleSubmit st r).networkCall = none ∧
    (TransactionForm.handleSubmit st r).alert = "Veuillez entrer un montant valide" ∧
    (TransactionForm.handleSubmit st r).newState = st := by
  have hc : st.montant = "" ∨ jsLe (parseFloat st.montant) 0 = true := by
    rcases h with h | ⟨q, hq, hle⟩
    · exact Or.inl h
    · exact Or.inr (by simp [jsLe, hq, hle])
  unfold TransactionForm.handleSubmit
  rw [if_pos hc]
  exact ⟨rfl, rfl, rfl⟩

/-- Witness for C2 at the empty amount field. -/
theorem transactionForm_invalid_amount_blocks_witness :
    (("" : String) = "" ∨ ∃ q, parseFloat "" = some q ∧ q ≤ 0) ∧
    (TransactionForm.handleSubmit { type := "DEPOT", montant := "", compteId := "" }
        (Except.ok ())).networkCall = none ∧
    (TransactionForm.handleSubmit { type := "DEPOT", montant := "", compteId := "" }
        (Except.ok ())).alert = "Veuillez entrer un montant valide" ∧
    (TransactionForm.handleSubmit { type := "DEPOT", montant := "", compteId := "" }
        (Except.ok ())).newState = { type := "DEPOT", montant := "", compteId := "" } :=
  ⟨Or.inl rfl, transactionForm_invalid_amount_blocks _ _ (Or.inl rfl)⟩

/-- C3: a Transaction Form submission with a valid amount but no
selected account issues no network call, alerts "Veuillez sélectionner
un compte" and leaves the state unchanged; and the amount check runs
strictly first, so when both checks fail only the invalid-amount alert
is shown. -/
theorem transactionForm_no_account_blocks (st : TransactionFormState)
    (r : Except String Unit) :
    ((∃ q, parseFloat st.montant = some q ∧ 0 < q) → st.compteId = "" →
      (TransactionForm.handleSubmit st r).networkCall = none ∧
      (TransactionForm.handleSubmit st r).alert = "Veuillez sélectionner un compte" ∧
      (TransactionForm.handleSubmit st r).newState = st) ∧
    ((st.montant = "" ∨ ∃ q, parseFloat st.montant = some q ∧ q ≤ 0) → st.compteId = "" →
      (TransactionForm.handleSubmit st r).alert = "Veuillez entrer un montant valide") := by
  constructor
  · rintro ⟨q, hq, hpos⟩ hcid
    have h1 : ¬ (st.montant = "" ∨ jsLe (parseFloat st.montant) 0 = true) := by
      rintro (heq | hb)
      · rw [heq, parseFloat_empty] at hq
        exact Option.noConfusion hq
      · rw [hq] at hb
        simp [jsLe] at hb
        exact absurd hb (not_le.mpr hpos)
    unfold TransactionForm.handleSubmit
    rw [if_neg h1, if_pos hcid]
    exact ⟨rfl, rfl, rfl⟩
  · intro h _
    have hc : st.montant = "" ∨ jsLe (parseFloat st.montant) 0 = true := by
      rcases h with h | ⟨q, hq, hle⟩
      · exact Or.inl h
      · exact Or.inr (by simp [jsLe, hq, hle])
    unfold TransactionForm.handleSubmit
    rw [if_pos hc]

/-- Witness for C3 at amount "500" with no account selected. -/
theorem transactionForm_no_account_blocks_witness :
    (∃ q, parseFloat "500" = some q ∧ 0 < q) ∧
    (TransactionForm.handleSubmit { type := "DEPOT", montant := "500", compteId := "" }
        (Except.ok ())).networkCall = none ∧
    (TransactionForm.handleSubmit { type := "DEPOT", montant := "500", compteId := "" }
        (Except.ok ())).alert = "Veuillez sélectionner un compte" := by
  have hval : ∃ q, parseFloat "500" = some q ∧ (0 : Rat) < q :=
    ⟨500, parseFloat_500, by norm_num⟩
  have h := (transactionForm_no_account_blocks
    { type := "DEPOT", montant := "500", compteId := "" } (Except.ok ())).1 hval rfl
  exact ⟨hval, h.1, h.2.1⟩

/-- C4: a valid Account Creator submission (balance parses to a value
≥ 0) whose mutation succeeds resets the balance field to "" and the
kind selector to "COURANT" and alerts the success message; a submission
with an empty balance or one parsing < 0 is rejected before any network
call with the invalid-balance alert. -/
theorem createCompte_submit_paths (st : CreateCompteState) (r : Except String Unit) :
    ((∃ q, parseFloat st.solde = some q ∧ 0 ≤ q) →
      (CreateCompte.handleSubmit st (Except.ok ())).newState =
        { solde := "", type := "COURANT" } ∧
      (CreateCompte.handleSubmit st (Except.ok ())).alert = "✅ Compte créé avec succès !") ∧
    ((st.solde = "" ∨ ∃ q, parseFloat st.solde = some q ∧ q < 0) →
      (CreateCompte.handleSubmit st r).networkCall = none ∧
      (CreateCompte.handleSubmit st r).alert = "Veuillez entrer un solde valide") := by
  constructor
  · rintro ⟨q, hq, hpos⟩
    have h1 : ¬ (st.solde = "" ∨ jsLt (parseFloat st.solde) 0 = true) := by
      rintro (heq | hb)
      · rw [heq, parseFloat_empty] at hq
        exact Option.noConfusion hq
      · rw [hq] at hb
        simp [jsLt] at hb
        exact absurd hb (not_lt.mpr hpos)
    unfold CreateCompte.handleSubmit
    rw [if_neg h1]
    exact ⟨rfl, rfl⟩
  · intro h
    have hc : st.solde = "" ∨ jsLt (parseFloat st.solde) 0 = true := by
      rcases h with h | ⟨q, hq, hlt⟩
      · exact Or.inl h
      · exact Or.inr (by simp [jsLt, hq, hlt])
    unfold CreateCompte.handleSubmit
    rw [if_pos hc]
    exact ⟨rfl, rfl⟩

/-- Witness for C4: valid balance "500" succeeds and resets the form;
balance "-100" is rejected with no network call. -/
theorem createCompte_submit_paths_witness :
    (∃ q, parseFloat "500" = some q ∧ (0 : Rat) ≤ q) ∧
    (CreateCompte.handleSubmit { solde := "500", type := "EPARGNE" }
        (Except.ok ())).newState = { solde := "", type := "COURANT" } ∧
    (CreateCompte.handleSubmit { solde := "500", type := "EPARGNE" }
        (Except.ok ())).alert = "✅ Compte créé avec succès !" ∧
    (∃ q, parseFloat "-100" = some q ∧ q < (0 : Rat)) ∧
    (CreateCompte.handleSubmit { solde := "-100", type := "COURANT" }
        (Except.ok ())).networkCall = none ∧
    (CreateCompte.handleSubmit { solde := "-100", type := "COURANT" }
        (Except.ok ())).alert = "Veuillez entrer un solde valide" := by
  have hval : ∃ q, parseFloat "500" = some q ∧ (0 : Rat) ≤ q :=
    ⟨500, parseFloat_500, by norm_num⟩
  have hneg : ∃ q, parseFloat "-100" = some q ∧ q < (0 : Rat) :=
    ⟨-100, parseFloat_neg100, by norm_num⟩
  have h1 := (createCompte_submit_paths { solde := "500", type := "EPARGNE" }
    (Except.ok ())).1 hval
  have h2 := (createCompte_submit_paths { solde := "-100", type := "COURANT" }
    (Except.ok ())).2 (Or.inr hneg)
  exact ⟨hval, h1.1, h1.2, hneg, h2.1, h2.2⟩

/-- C5: a successful Record-transaction submission (one that put a
request on the network and whose mutation resolved ok) resets the
amount field to "" while the selected account id and transaction type
keep their submission-time values. -/
theorem transactionForm_success_resets_only_amount (st : TransactionFormState)
    (h : (TransactionForm.handleSubmit st (Except.ok ())).networkCall ≠ none) :
    (TransactionForm.handleSubmit st (Except.ok ())).newState.montant = "" ∧
    (TransactionForm.handleSubmit st (Except.ok ())).newState.compteId = st.compteId ∧
    (TransactionForm.handleSubmit st (Except.ok ())).newState.type = st.type := by
  unfold TransactionForm.handleSubmit at h ⊢
  by_cases h1 : st.montant = "" ∨ jsLe (parseFloat st.montant) 0 = true
  · rw [if_pos h1] at h
    exact absurd rfl h
  · rw [if_neg h1] at h ⊢
    by_cases h2 : st.compteId = ""
    · rw [if_pos h2] at h
      exact absurd rfl h
    · rw [if_neg h2]
      exact ⟨rfl, rfl, rfl⟩

/-- Witness for C5 at a withdrawal of 500 from account "1". -/
theorem transactionForm_success_resets_only_amount_witness :
    ((TransactionForm.handleSubmit { type := "RETRAIT", montant := "500", compteId := "1" }
        (Except.ok ())).networkCall ≠ none) ∧
    (TransactionForm.handleSubmit { type := "RETRAIT", montant := "500", compteId := "1" }
        (Except.ok ())).newState.montant = "" ∧
    (TransactionForm.handleSubmit { type := "RETRAIT", montant := "500", compteId := "1" }
        (Except.ok ())).newState.compteId = "1" ∧
    (TransactionForm.handleSubmit { type := "RETRAIT", montant := "500", compteId := "1" }
        (Except.ok ())).newState.type = "RETRAIT" := by
  have hcond : ¬ (("500" : String) = "" ∨ jsLe (parseFloat "500") 0 = true) := by
    rw [parseFloat_500]
    decide
  have hnc : (TransactionForm.handleSubmit
      { type := "RETRAIT", montant := "500", compteId := "1" } (Except.ok ())).networkCall =
      some { type := "RETRAIT", montant := parseFloat "500", compteId := "1" } := by
    unfold TransactionForm.handleSubmit
    rw [if_neg hcond, if_neg (by decide : ¬ ("1" : String) = "")]
  have hne : (TransactionForm.handleSubmit
      { type := "RETRAIT", montant := "500", compteId := "1" }
      (Except.ok ())).networkCall ≠ none := by
    rw [hnc]
    exact fun hcontra => Option.noConfusion hcontra
  exact ⟨hne, transactionForm_success_resets_only_amount _ hne⟩

/-- C6: a write submission (either form) that reached the network and
settled with an error alerts the error message prefixed "❌ Erreur : "
and keeps every form field at its submission-time value. -/
theorem write_failure_preserves_input (tst : TransactionFormState)
    (cst : CreateCompteState) (msg : String) :
    ((TransactionForm.handleSubmit tst (Except.error msg)).networkCall ≠ none →
      (TransactionForm.handleSubmit tst (Except.error msg)).alert = "❌ Erreur : " ++ msg ∧
      (TransactionForm.handleSubmit tst (Except.error msg)).newState = tst) ∧
    ((CreateCompte.handleSubmit cst (Except.error msg)).networkCall ≠ none →
      (CreateCompte.handleSubmit cst (Except.error msg)).alert = "❌ Erreur : " ++ msg ∧
      (CreateCompte.handleSubmit cst (Except.error msg)).newState = cst) := by
  constructor
  · intro h
    unfold TransactionForm.handleSubmit at h ⊢
    by_cases h1 : tst.montant = "" ∨ jsLe (parseFloat tst.montant) 0 = true
    · rw [if_pos h1] at h
      exact absurd rfl h
    · rw [if_neg h1] at h ⊢
      by_cases h2 : tst.compteId = ""
      · rw [if_pos h2] at h
        exact absurd rfl h
      · rw [if_neg h2]
        exact ⟨rfl, rfl⟩
  · intro h
    unfold CreateCompte.handleSubmit at h ⊢
    by_cases h1 : cst.solde = "" ∨ jsLt (parseFloat cst.solde) 0 = true
    · rw [if_pos h1] at h
      exact absurd rfl h
    · rw [if_neg h1]
      exact ⟨rfl, rfl⟩

/-- Witness for C6 at a failing deposit and a failing account creation. -/
theorem write_failure_preserves_input_witness :
    ((TransactionForm.handleSubmit { type := "DEPOT", montant := "500", compteId := "1" }
        (Except.error "Erreur lors de la transaction")).networkCall ≠ none) ∧
    (TransactionForm.handleSubmit { type := "DEPOT", montant := "500", compteId := "1" }
        (Except.error "Erreur lors de la transaction")).alert =
      "❌ Erreur : " ++ "Erreur lors de la transaction" ∧
    (TransactionForm.handleSubmit { type := "DEPOT", montant := "500", compteId := "1" }
        (Except.error "Erreur lors de la transaction")).newState =
      { type := "DEPOT", montant := "500", compteId := "1" } ∧
    ((CreateCompte.handleSubmit { solde := "500", type := "COURANT" }
        (Except.error "Erreur lors de la transaction")).networkCall ≠ none) ∧
    (CreateCompte.handleSubmit { solde := "500", type := "COURANT" }
        (Except.error "Erreur lors de la transaction")).alert =
      "❌ Erreur : " ++ "Erreur lors de la transaction" ∧
    (CreateCompte.handleSubmit { solde := "500", type := "COURANT" }
        (Except.error "Erreur lors de la transaction")).newState =
      { solde := "500", type := "COURANT" } := by
  have hcondT : ¬ (("500" : String) = "" ∨ jsLe (parseFloat "500") 0 = true) := by
    rw [parseFloat_500]
    decide
  have hcondC : ¬ (("500" : String) = "" ∨ jsLt (parseFloat "500") 0 = true) := by
    rw [parseFloat_500]
    decide
  have hncT : (TransactionForm.handleSubmit
      { type := "DEPOT", montant := "500", compteId := "1" }
      (Except.error "Erreur lors de la transaction")).networkCall =
      some { type := "DEPOT", montant := parseFloat "500", compteId := "1" } := by
    unfold TransactionForm.handleSubmit
    rw [if_neg hcondT, if_neg (by decide : ¬ ("1" : String) = "")]
  have hncC : (CreateCompte.handleSubmit { solde := "500", type := "COURANT" }
      (Except.error "Erreur lors de la transaction")).networkCall =
      some { solde := parseFloat "500", type := "COURANT" } := by
    unfold CreateCompte.handleSubmit
    rw [if_neg hcondC]
  have hneT : (TransactionForm.handleSubmit
      { type := "DEPOT", montant := "500", compteId := "1" }
      (Except.error "Erreur lors de la transaction")).networkCall ≠ none := by
    rw [hncT]
    exact fun hcontra => Option.noConfusion hcontra
  have hneC : (CreateCompte.handleSubmit { solde := "500", type := "COURANT" }
      (Except.error "Erreur lors de la transaction")).networkCall ≠ none := by
    rw [hncC]
    exact fun hcontra => Option.noConfusion hcontra
  have h := write_failure_preserves_input
    { type := "DEPOT", montant := "500", compteId := "1" }
    { solde := "500", type := "COURANT" } "Erreur lors de la transaction"
  exact ⟨hneT, (h.1 hneT).1, (h.1 hneT).2, hneC, (h.2 hneC).1, (h.2 hneC).2⟩

/-- C7: the Account List render is a function of the query state: in
the loading state it shows the spinner and no rows; in the error state
it shows the server error message and no rows; in the ready state with
a non-empty list it shows one row per returned account and the label
"Total: N compte(s)" for N the number of accounts. -/
theorem compteList_render_states (msg : String) (comptes : List Compte)
    (_hne : comptes ≠ []) :
    (CompteList.render QueryState.loading).loadingIndicator = true ∧
    (CompteList.render QueryState.loading).rows = [] ∧
    (CompteList.render QueryState.loading).errorMessage = none ∧
    (CompteList.render (QueryState.error msg)).errorMessage = some msg ∧
    (CompteList.render (QueryState.error msg)).rows = [] ∧
    (CompteList.render (QueryState.error msg)).loadingIndicator = false ∧
    (CompteList.render (QueryState.ready comptes)).loadingIndicator = false ∧
    (CompteList.render (QueryState.ready comptes)).errorMessage = none ∧
    (CompteList.render (QueryState.ready comptes)).rows = comptes ∧
    (CompteList.render (QueryState.ready comptes)).countLabel =
      some ("Total: " ++ toString comptes.length ++ " compte(s)") := by
  exact ⟨rfl, rfl, rfl, rfl, rfl, rfl, rfl, rfl, rfl, rfl⟩

/-- Witness for C7 at the two-account spec scenario and a concrete
server error message. -/
theorem compteList_render_states_witness :
    ([compte1, compte2] ≠ ([] : List Compte)) ∧
    (CompteList.render QueryState.loading).loadingIndicator = true ∧
    (CompteList.render (QueryState.error "Erreur serveur")).errorMessage =
      some "Erreur serveur" ∧
    (CompteList.render (QueryState.error "Erreur serveur")).rows = [] ∧
    (CompteList.render (QueryState.ready [compte1, compte2])).rows = [compte1, compte2] ∧
    (CompteList.render (QueryState.ready [compte1, compte2])).countLabel =
      some "Total: 2 compte(s)" := by
  obtain ⟨h1, h2, h3, h4, h5, h6, h7, h8, h9, h10⟩ :=
    compteList_render_states "Erreur serveur" [compte1, compte2]
      (fun hcontra => List.noConfusion hcontra)
  refine ⟨fun hcontra => List.noConfusion hcontra, h1, h4, h5, h9, ?_⟩
  rw [h10]
  decide

/-- C8: the transport client is configured with fetch policy
"network-only" for both one-shot queries and watch queries, while still
holding an in-memory cache instance. -/
theorem client_network_only_defaults :
    client.watchQueryDefaults.fetchPolicy = "network-only" ∧
    client.queryDefaults.fetchPolicy = "network-only" ∧
    client.hasInMemoryCache = true := by
  decide

/-- C9: the non-empty non-numeric amount "abc" parses to NaN, so both
guards pass (NaN compares false) and a network request carrying
montant = NaN is issued by the Transaction Form; the Account Creator
balance guard has the same gap, so the guards do not establish
amount > 0 or balance ≥ 0 for every request that reaches the network. -/
theorem nan_input_reaches_network :
    ("abc" : String) ≠ "" ∧
    parseFloat "abc" = none ∧
    (TransactionForm.handleSubmit { type := "DEPOT", montant := "abc", compteId := "1" }
        (Except.ok ())).networkCall =
      some { type := "DEPOT", montant := none, compteId := "1" } ∧
    (¬ ∃ q, (none : Option Rat) = some q ∧ 0 < q) ∧
    (CreateCompte.handleSubmit { solde := "abc", type := "COURANT" }
        (Except.ok ())).networkCall =
      some { solde := none, type := "COURANT" } := by
  refine ⟨by decide, by decide, by decide, ?_, by decide⟩
  rintro ⟨q, hq, _⟩
  exact Option.noConfusion hq

/-- C10: the Account List ready state with zero accounts renders the
label "Total: 0 compte(s)", the empty-state notice instead of rows, and
the refresh button wired to re-issue the GET_ALL_COMPTES read. -/
theorem compteList_empty_ready :
    CompteList.render (QueryState.ready []) =
      { loadingIndicator := false
        errorMessage := none
        countLabel := some "Total: 0 compte(s)"
        emptyNotice := true
        rows := []
        refreshButton := true
        refreshQuery := some QueryOp.getAllComptes } := by
  decide
